import Mathlib

/-!
Shallow embedding of the two directory-aggregator scripts of this repository,
src/DevTools/collect_project_v4.py and src/DevTools/collect_all.py, together
with proofs about them.

Modelling conventions:
* The filesystem below PROJECT_ROOT is a tree of named nodes.  A file carries
  the outcome of reading it: Except.ok text when open/read succeeds and
  Except.error msg when it raises (the message is the exception description
  that Python interpolates into the inline error marker).
* The path separator os.sep is "/" (the scripts are run on a POSIX system).
* os.walk visits a directory top-down, yielding the directory itself and then
  recursing into its (pruned) subdirectories in list order; the pruning
  statement dirs[:] = [d for d in dirs if d not in ignore] is modelled by
  skipping child directories whose name is in the ignore list.
* Python str comparison is lexicographic on code points; sorted(files) is
  modelled by an insertion sort with that order (directory listings have
  pairwise distinct names, so any stable ascending sort agrees with it).
* Writing to the open output handle is sequential concatenation, so each
  section is the concatenation of the strings written by the loop bodies.
-/

namespace Collect

/-- Python str.startswith on whole strings: the second argument is a literal
character-by-character prefix of the first. -/
def pyStartswith (s p : String) : Bool := p.data.isPrefixOf s.data

/-- Python str.endswith on whole strings: the second argument is a literal
character-by-character suffix of the first. -/
def pyEndswith (s p : String) : Bool := p.data.isSuffixOf s.data

/-- Python lexicographic < on lists of characters, comparing code points. -/
def pyListLt : List Char → List Char → Bool
  | _, [] => false
  | [], _ :: _ => true
  | a :: as, b :: bs =>
    if a.toNat < b.toNat then true
    else if b.toNat < a.toNat then false
    else pyListLt as bs

/-- Python < on strings (code-point lexicographic). -/
def pyLtb (a b : String) : Bool := pyListLt a.data b.data

/-- Python <= on strings, expressed from < as sorted(...) uses it. -/
def pyLeb (a b : String) : Bool := !(pyLtb b a)

/-- The extension filter used by both scripts:
any(f.endswith(ext) for ext in extensions). -/
def matchesExt (exts : List String) (f : String) : Bool :=
  exts.any (fun e => pyEndswith f e)

/-- Sequential writes to the output handle: concatenation of the written
strings in order. -/
def strConcat : List String → String
  | [] => ""
  | s :: r => s ++ strConcat r

/-- Python ", ".join(scan_dirs), used for the Source header of collect_all. -/
def commaSep : List String → String
  | [] => ""
  | [s] => s
  | s :: r => s ++ ", " ++ commaSep r

/-- An indentation string of n spaces (Python: ' ' * n). -/
def spaces (n : Nat) : String := String.mk (List.replicate n ' ')

/-- os.path.relpath of a child named n of the directory at root-relative path
rel (the scripts normalise the root itself to the empty relative path). -/
def joinRel (rel n : String) : String := if rel = "" then n else rel ++ "/" ++ n

/-- rel_root.count(os.sep): the nesting level used for indentation. -/
def indentLevel (rel : String) : Nat := rel.data.count '/'

mutual

/-- A node of the scanned filesystem: a file with its read outcome, or a
directory with its children in listing order. -/
inductive FSTree where
  | file (name : String) (content : Except String String)
  | dir  (name : String) (children : FSList)

/-- The children of a directory, in the order os.walk lists them. -/
inductive FSList where
  | nil
  | cons (head : FSTree) (tail : FSList)

end

/-- The name of a filesystem node. -/
def FSTree.entryName : FSTree → String
  | .file n _ => n
  | .dir n _ => n

/-- The files of a directory listing, in order, with their read outcomes
(the files component of an os.walk triple, plus the content that a later
open of each file would produce). -/
def fileEntries : FSList → List (String × Except String String)
  | .nil => []
  | .cons (.file n c) t => (n, c) :: fileEntries t
  | .cons (.dir _ _) t => fileEntries t

/-- Filesystem name lookup among the children of a directory. -/
def findChild (n : String) : FSList → Option FSTree
  | .nil => none
  | .cons h t => if h.entryName = n then some h else findChild n t

/-- Resolution of a root-relative path given by its components; none when the
path does not exist (os.path.exists is isSome of this). -/
def lookupPath : FSTree → List String → Option FSTree
  | t, [] => some t
  | .file _ _, _ :: _ => none
  | .dir _ cs, n :: rest =>
    match findChild n cs with
    | none => none
    | some c => lookupPath c rest

/-- Splitting a list of characters at a separator character. -/
def splitChars (sep : Char) : List Char → List (List Char)
  | [] => [[]]
  | c :: r =>
    match splitChars sep r with
    | [] => [[c]]
    | g :: gs => if c = sep then [] :: g :: gs else (c :: g) :: gs

/-- The components of a scan-directory argument relative to PROJECT_ROOT;
"." denotes PROJECT_ROOT itself. -/
def relParts (s : String) : List String :=
  if s = "." then [] else (splitChars '/' s.data).map String.mk

/-- os.path.relpath(os.path.join(PROJECT_ROOT, s), PROJECT_ROOT), with the
normalisation rel_root = "" that both scripts apply when it equals ".". -/
def topRel (s : String) : String := if s = "." then "" else s

/-- One os.walk step: the root-relative path of the visited directory, its
base name, and its file listing with read outcomes. -/
structure WalkEntry where
  rel   : String
  base  : String
  files : List (String × Except String String)

mutual

/-- The os.walk entries contributed by one child node, under the pruning
dirs[:] = [d for d in dirs if d not in ignore] applied at every level:
a file contributes nothing, a pruned directory contributes nothing, and a
surviving directory is visited and then walked recursively. -/
def walkTree (ignore : List String) (rel : String) : FSTree → List WalkEntry
  | .file _ _ => []
  | .dir n cs =>
    if ignore.contains n then []
    else ⟨joinRel rel n, n, fileEntries cs⟩ :: walkChildren ignore (joinRel rel n) cs

/-- The os.walk entries contributed by a pruned children list, in order. -/
def walkChildren (ignore : List String) (rel : String) : FSList → List WalkEntry
  | .nil => []
  | .cons h t => walkTree ignore rel h ++ walkChildren ignore rel t

end

/-- os.walk(top) for a directory at root-relative path rel with base name
base and children cs: the top directory is always yielded first (it is never
tested against the ignore set), then its pruned subtrees. -/
def walkTop (ignore : List String) (rel base : String) (cs : FSList) : List WalkEntry :=
  ⟨rel, base, fileEntries cs⟩ :: walkChildren ignore rel cs

/-- Ordering of directory listings by file name, as sorted(files) compares. -/
def pairNameLe (a b : String × Except String String) : Prop :=
  pyLeb a.1 b.1 = true

instance : DecidableRel pairNameLe :=
  fun a b => Bool.decEq (pyLeb a.1 b.1) true

/-- sorted(files): the file listing in ascending code-point order of names. -/
def sortFiles (l : List (String × Except String String)) :
    List (String × Except String String) :=
  List.insertionSort pairNameLe l

/-- The file names a visited directory contributes, in emission order:
for f in sorted(files): if any(f.endswith(ext) for ext in extensions). -/
def entryNames (exts : List String) (e : WalkEntry) : List String :=
  ((sortFiles e.files).map Prod.fst).filter (matchesExt exts)

/-- The (name, read outcome) pairs a visited directory contributes to the
contents pass, in the same order. -/
def entryPairs (exts : List String) (e : WalkEntry) :
    List (String × Except String String) :=
  (sortFiles e.files).filter (fun fc => matchesExt exts fc.1)

/-- The delimiter block header of write_file_content (identical in both
scripts). -/
def fileHeader (relPath : String) : String :=
  "\n// ==========================================\n// FILE: " ++ relPath ++
    "\n// ==========================================\n\n"

/-- The body written for one file: its text on success, or the inline error
marker carrying the exception description when reading raises. -/
def renderContent : Except String String → String
  | .ok s => s
  | .error e => "// Error reading file: " ++ e

/-- Everything write_file_content writes for one file. -/
def fileBlock (relPath : String) (c : Except String String) : String :=
  fileHeader relPath ++ renderContent c ++ "\n"

/-! Embedding of collect_project_v4.py. -/

/-- The IGNORE_DIRS constant of collect_project_v4.py (a set in the source;
only membership is used). -/
def IGNORE_DIRS : List String :=
  [".git", ".build", "DerivedData", "Assets.xcassets",
   "CardSampleGame.xcodeproj", ".xcworkspace", ".idea",
   "__pycache__", "DevTools", "Output", ".swiftpm"]

/-- The directory filter of the structure pass of collect_project_v4
(lines 54-61): kept unless an include list is given and no include path p
satisfies rel_root.startswith(p) or p.startswith(rel_root), and unless an
exclude list is given and some exclude path p satisfies
rel_root.startswith(p).  Empty lists are falsy in Python, hence disable
their test. -/
def v4KeepStruct (incl excl : List String) (rel : String) : Bool :=
  (incl.isEmpty || incl.any (fun p => pyStartswith rel p || pyStartswith p rel)) &&
  (excl.isEmpty || !(excl.any (fun p => pyStartswith rel p)))

/-- The directory filter of the contents pass of collect_project_v4
(lines 83-89): same as the structure filter except that the include test is
only rel_root.startswith(p). -/
def v4KeepCont (incl excl : List String) (rel : String) : Bool :=
  (incl.isEmpty || incl.any (fun p => pyStartswith rel p)) &&
  (excl.isEmpty || !(excl.any (fun p => pyStartswith rel p)))

/-- os.walk(PROJECT_ROOT) with IGNORE_DIRS pruning, as both passes of
collect_project_v4 run it.  PROJECT_ROOT has relative path "". -/
def v4Walk : FSTree → List WalkEntry
  | .file _ _ => []
  | .dir n cs => walkTop IGNORE_DIRS "" n cs

/-- The root-relative paths of the files listed by the structure pass of
collect_project_v4, in emission order. -/
def v4StructFiles (exts incl excl : List String) (fs : FSTree) : List String :=
  ((v4Walk fs).filter (fun e => v4KeepStruct incl excl e.rel)).flatMap
    (fun e => (entryNames exts e).map (joinRel e.rel))

/-- The (relative path, read outcome) pairs of the blocks written by the
contents pass of collect_project_v4, in emission order. -/
def v4ContBlocks (exts incl excl : List String) (fs : FSTree) :
    List (String × Except String String) :=
  ((v4Walk fs).filter (fun e => v4KeepCont incl excl e.rel)).flatMap
    (fun e => (entryPairs exts e).map (fun fc => (joinRel e.rel fc.1, fc.2)))

/-- The root-relative paths of the files whose content the contents pass of
collect_project_v4 emits, in emission order. -/
def v4ContFiles (exts incl excl : List String) (fs : FSTree) : List String :=
  (v4ContBlocks exts incl excl fs).map Prod.fst

/-- What the structure pass of collect_project_v4 writes for one surviving
walk entry: the indented directory line (skipped for the root) followed by
the matching file names indented one further level. -/
def v4StructEntryStr (exts : List String) (e : WalkEntry) : String :=
  (if e.rel = "" then "" else spaces (4 * indentLevel e.rel) ++ e.base ++ "/\n") ++
  strConcat ((entryNames exts e).map
    (fun f => spaces (4 * (indentLevel e.rel + 1)) ++ f ++ "\n"))

/-- The FILE STRUCTURE section body of collect_project_v4. -/
def v4StructSection (exts incl excl : List String) (fs : FSTree) : String :=
  strConcat (((v4Walk fs).filter (fun e => v4KeepStruct incl excl e.rel)).map
    (v4StructEntryStr exts))

/-- The FILE CONTENTS section body of collect_project_v4. -/
def v4ContSection (exts incl excl : List String) (fs : FSTree) : String :=
  strConcat ((v4ContBlocks exts incl excl fs).map (fun b => fileBlock b.1 b.2))

/-- The whole document collect_files of collect_project_v4.py writes for one
run, as a function of the constants, the parameters and the scanned tree. -/
def v4Doc (projRoot : String) (exts incl excl : List String) (fs : FSTree) : String :=
  "=== DUMP GENERATED ===\nSource: " ++ projRoot ++ "\n\n" ++
  "=== FILE STRUCTURE ===\n" ++ v4StructSection exts incl excl fs ++
  "\n=== FILE CONTENTS ===\n" ++ v4ContSection exts incl excl fs

/-! Embedding of collect_all.py. -/

/-- os.walk of one configured scan directory of collect_all: none when the
path does not exist (os.path.exists fails), otherwise the walk entries; a
scan path naming a file exists but yields no walk step. -/
def walkScan (fs : FSTree) (ignore : List String) (s : String) :
    Option (List WalkEntry) :=
  match lookupPath fs (relParts s) with
  | none => none
  | some (.file _ _) => some []
  | some (.dir n cs) => some (walkTop ignore (topRel s) n cs)

/-- What the structure pass of collect_all writes for one walk entry: at the
scan root with relative path "" no directory line is written and subindent
is empty; elsewhere the directory line and one extra indent level. -/
def allStructEntryStr (exts : List String) (e : WalkEntry) : String :=
  if e.rel = "" then
    strConcat ((entryNames exts e).map (fun f => f ++ "\n"))
  else
    spaces (4 * indentLevel e.rel) ++ e.base ++ "/\n" ++
    strConcat ((entryNames exts e).map
      (fun f => spaces (4 * (indentLevel e.rel + 1)) ++ f ++ "\n"))

/-- What the structure pass of collect_all writes for one configured scan
directory: its walk when it exists, else the not-found notice. -/
def allStructScanStr (fs : FSTree) (exts ignore : List String) (s : String) : String :=
  match walkScan fs ignore s with
  | none => "(Directory not found: " ++ s ++ ")\n"
  | some es => strConcat (es.map (allStructEntryStr exts))

/-- The extra root files listed at the top of the structure section of
collect_all, filtered by os.path.exists. -/
def extraStructStr (fs : FSTree) (extras : List String) : String :=
  strConcat (extras.map (fun x =>
    if (lookupPath fs (relParts x)).isSome then x ++ " (Root File)\n" else ""))

/-- The (relative path, read outcome) pairs of the blocks the contents pass
of collect_all writes for one configured scan directory (nothing when it
does not exist). -/
def allContScanBlocks (fs : FSTree) (exts ignore : List String) (s : String) :
    List (String × Except String String) :=
  match walkScan fs ignore s with
  | none => []
  | some es =>
    es.flatMap (fun e => (entryPairs exts e).map (fun fc => (joinRel e.rel fc.1, fc.2)))

/-- The outcome of open(filepath).read() at a resolved path: the stored read
outcome for a file; opening a directory raises IsADirectoryError, which
write_file_content catches like any other read failure. -/
def readAt (fs : FSTree) (p : List String) : Except String String :=
  match lookupPath fs p with
  | some (.file _ c) => c
  | some (.dir _ _) => .error "IsADirectoryError"
  | none => .error "FileNotFoundError"

/-- The blocks the third phase of collect_all writes for the extra root
files, filtered by os.path.exists. -/
def extraContBlocks (fs : FSTree) (extras : List String) :
    List (String × Except String String) :=
  extras.filterMap (fun x =>
    if (lookupPath fs (relParts x)).isSome then some (x, readAt fs (relParts x)) else none)

/-- The FILE STRUCTURE section body of collect_all. -/
def allStructSection (scanDirs exts ignore extras : List String) (fs : FSTree) : String :=
  extraStructStr fs extras ++
  strConcat (scanDirs.map (allStructScanStr fs exts ignore))

/-- The FILE CONTENTS section body of collect_all: the per-scan-directory
blocks in scan order, then the extra root file blocks. -/
def allContSection (scanDirs exts ignore extras : List String) (fs : FSTree) : String :=
  strConcat (scanDirs.map (fun s =>
    strConcat ((allContScanBlocks fs exts ignore s).map (fun b => fileBlock b.1 b.2)))) ++
  strConcat ((extraContBlocks fs extras).map (fun b => fileBlock b.1 b.2))

/-- The whole document collect_files of collect_all.py writes for one run. -/
def allDoc (scanDirs exts ignore extras : List String) (fs : FSTree) : String :=
  "=== DUMP GENERATED ===\nSource: " ++ commaSep scanDirs ++ "\n\n" ++
  "=== FILE STRUCTURE ===\n" ++ allStructSection scanDirs exts ignore extras fs ++
  "\n=== FILE CONTENTS ===\n" ++ allContSection scanDirs exts ignore extras fs

/-- The root-relative paths of the files the structure pass of collect_all
lists for one scan directory, in emission order. -/
def allStructSeqScan (fs : FSTree) (exts ignore : List String) (s : String) :
    List String :=
  match walkScan fs ignore s with
  | none => []
  | some es => es.flatMap (fun e => (entryNames exts e).map (joinRel e.rel))

/-- The root-relative paths of the files whose content the contents pass of
collect_all emits for one scan directory, in emission order. -/
def allContSeqScan (fs : FSTree) (exts ignore : List String) (s : String) :
    List String :=
  match walkScan fs ignore s with
  | none => []
  | some es => es.flatMap (fun e => (entryPairs exts e).map (fun fc => joinRel e.rel fc.1))

/-- The per-file order of the whole structure section of collect_all:
existing extra root files first, then the walks of the scan directories. -/
def allStructSeq (scanDirs exts ignore extras : List String) (fs : FSTree) :
    List String :=
  extras.filter (fun x => (lookupPath fs (relParts x)).isSome) ++
  scanDirs.flatMap (allStructSeqScan fs exts ignore)

/-- The per-file order of the whole contents section of collect_all: the
walks of the scan directories first, then the existing extra root files. -/
def allContSeq (scanDirs exts ignore extras : List String) (fs : FSTree) :
    List String :=
  scanDirs.flatMap (allContSeqScan fs exts ignore) ++
  extras.filter (fun x => (lookupPath fs (relParts x)).isSome)

/-! Output-directory state: both scripts open their output file with mode w,
which truncates whatever a previous run left there. -/

/-- Writing (mode w) one file into the output directory state. -/
def writeOut (st : String → Option String) (name content : String) :
    String → Option String :=
  fun n => if n = name then some content else st n

/-- A whole run of collect_files of collect_project_v4.py as a transformer
of the output-directory state. -/
def v4Run (projRoot outName : String) (exts incl excl : List String) (fs : FSTree)
    (st : String → Option String) : String → Option String :=
  writeOut st outName (v4Doc projRoot exts incl excl fs)

/-- A whole run of collect_files of collect_all.py as a transformer of the
output-directory state. -/
def allRun (scanDirs : List String) (outName : String)
    (exts ignore extras : List String) (fs : FSTree)
    (st : String → Option String) : String → Option String :=
  writeOut st outName (allDoc scanDirs exts ignore extras fs)

mutual

/-- Deletion, below a node, of every directory whose name the traversal
pruning would drop (the node itself is kept: os.walk never tests the top). -/
def pruneTree (ignore : List String) : FSTree → FSTree
  | .file n c => .file n c
  | .dir n cs => .dir n (pruneList ignore cs)

/-- Deletion of the pruned directories from a children list. -/
def pruneList (ignore : List String) : FSList → FSList
  | .nil => .nil
  | .cons (.file n c) t => .cons (.file n c) (pruneList ignore t)
  | .cons (.dir n cs) t =>
    if ignore.contains n then pruneList ignore t
    else .cons (.dir n (pruneList ignore cs)) (pruneList ignore t)

end

/-- Deletion of all IGNORE_DIRS-named subtrees below PROJECT_ROOT. -/
def v4Prune : FSTree → FSTree
  | .file n c => .file n c
  | .dir n cs => .dir n (pruneList IGNORE_DIRS cs)


/-! Order lemmas for the code-point comparison used by sorted(files). -/

theorem pyListLt_asymm : (as bs : List Char) → pyListLt as bs = true → pyListLt bs as = false
  | _, [], h => by simp [pyListLt] at h
  | [], _ :: _, _ => by simp [pyListLt]
  | a :: as, b :: bs, h => by
    simp only [pyListLt] at h ⊢
    rcases Nat.lt_trichotomy a.toNat b.toNat with h1 | h1 | h1
    · rw [if_neg (by omega), if_pos h1]
    · rw [if_neg (by omega), if_neg (by omega)] at h
      rw [if_neg (by omega), if_neg (by omega)]
      exact pyListLt_asymm as bs h
    · rw [if_neg (by omega), if_pos h1] at h
      exact absurd h (by simp)

theorem pyListLt_negtrans : (as bs cs : List Char) →
    pyListLt as bs = false → pyListLt bs cs = false → pyListLt as cs = false
  | [], bs, cs, hab, hbc => by
    cases bs with
    | nil =>
      cases cs with
      | nil => rfl
      | cons c cs => simp [pyListLt] at hbc
    | cons b bs => simp [pyListLt] at hab
  | a :: as, bs, cs, hab, hbc => by
    cases cs with
    | nil => rfl
    | cons c cs =>
      cases bs with
      | nil => simp [pyListLt] at hbc
      | cons b bs =>
        simp only [pyListLt] at hab hbc ⊢
        rcases Nat.lt_trichotomy a.toNat b.toNat with h1 | h1 | h1
        · rw [if_pos h1] at hab
          exact absurd hab (by simp)
        · rw [if_neg (by omega), if_neg (by omega)] at hab
          rcases Nat.lt_trichotomy b.toNat c.toNat with h2 | h2 | h2
          · rw [if_pos h2] at hbc
            exact absurd hbc (by simp)
          · rw [if_neg (by omega), if_neg (by omega)] at hbc
            rw [if_neg (by omega), if_neg (by omega)]
            exact pyListLt_negtrans as bs cs hab hbc
          · rw [if_neg (by omega), if_pos (by omega)]
        · rcases Nat.lt_trichotomy b.toNat c.toNat with h2 | h2 | h2
          · rw [if_pos h2] at hbc
            exact absurd hbc (by simp)
          · rw [if_neg (by omega), if_pos (by omega)]
          · rw [if_neg (by omega), if_pos (by omega)]

theorem pyLeb_total (a b : String) : pyLeb a b = true ∨ pyLeb b a = true := by
  unfold pyLeb pyLtb
  cases h : pyListLt b.data a.data with
  | false => left; simp
  | true => right; simp [pyListLt_asymm _ _ h]

theorem pyLeb_trans (a b c : String) :
    pyLeb a b = true → pyLeb b c = true → pyLeb a c = true := by
  unfold pyLeb pyLtb
  intro h1 h2
  rw [Bool.not_eq_true'] at h1 h2 ⊢
  exact pyListLt_negtrans _ _ _ h2 h1

instance : IsTotal (String × Except String String) pairNameLe :=
  ⟨fun a b => pyLeb_total a.1 b.1⟩

instance : IsTrans (String × Except String String) pairNameLe :=
  ⟨fun _ _ _ h1 h2 => pyLeb_trans _ _ _ h1 h2⟩

/-! Basic facts about the emission helpers. -/

theorem strConcat_append : (l₁ l₂ : List String) →
    strConcat (l₁ ++ l₂) = strConcat l₁ ++ strConcat l₂
  | [], _ => rfl
  | s :: r, l₂ => by
    show s ++ strConcat (r ++ l₂) = s ++ strConcat r ++ strConcat l₂
    rw [strConcat_append r l₂, String.append_assoc]

theorem entryNames_eq (exts : List String) (e : WalkEntry) :
    entryNames exts e = (entryPairs exts e).map Prod.fst := by
  unfold entryNames entryPairs
  rw [List.filter_map]
  rfl

theorem entryNames_pairwise (exts : List String) (e : WalkEntry) :
    List.Pairwise (fun a b => pyLeb a b = true) (entryNames exts e) := by
  have hs : List.Sorted pairNameLe (sortFiles e.files) :=
    List.sorted_insertionSort pairNameLe e.files
  have hm : List.Pairwise (fun a b : String => pyLeb a b = true)
      ((sortFiles e.files).map Prod.fst) :=
    List.Pairwise.map Prod.fst (fun _ _ h => h) hs
  exact hm.filter (matchesExt exts)

/-! Pruned subtrees contribute nothing to the traversal. -/

theorem fileEntries_pruneList (ig : List String) :
    (l : FSList) → fileEntries (pruneList ig l) = fileEntries l
  | .nil => rfl
  | .cons (.file n c) t => by
    simp [pruneList, fileEntries, fileEntries_pruneList ig t]
  | .cons (.dir n cs) t => by
    by_cases h : n ∈ ig
    · simp [pruneList, fileEntries, h, fileEntries_pruneList ig t]
    · simp [pruneList, fileEntries, h, fileEntries_pruneList ig t]

theorem walkChildren_pruneList (ig : List String) (rel : String) :
    (l : FSList) → walkChildren ig rel (pruneList ig l) = walkChildren ig rel l
  | .nil => rfl
  | .cons (.file n c) t => by
    simp [pruneList, walkChildren, walkTree, walkChildren_pruneList ig rel t]
  | .cons (.dir n cs) t => by
    by_cases h : n ∈ ig
    · simp [pruneList, walkChildren, walkTree, h, walkChildren_pruneList ig rel t]
    · simp [pruneList, walkChildren, walkTree, h, fileEntries_pruneList,
        walkChildren_pruneList ig (joinRel rel n) cs, walkChildren_pruneList ig rel t]

theorem walkTop_pruneList (ig : List String) (rel base : String) (cs : FSList) :
    walkTop ig rel base (pruneList ig cs) = walkTop ig rel base cs := by
  simp [walkTop, fileEntries_pruneList, walkChildren_pruneList]

theorem v4Walk_v4Prune : (fs : FSTree) → v4Walk (v4Prune fs) = v4Walk fs
  | .file _ _ => rfl
  | .dir n cs => walkTop_pruneList IGNORE_DIRS "" n cs

/-! Claim C1. -/

theorem v4KeepCont_keepStruct (incl excl : List String) (rel : String)
    (h : v4KeepCont incl excl rel = true) : v4KeepStruct incl excl rel = true := by
  unfold v4KeepCont at h
  unfold v4KeepStruct
  rw [Bool.and_eq_true] at h ⊢
  refine ⟨?_, h.2⟩
  cases h1 : incl.isEmpty with
  | true => simp [h1]
  | false =>
    have h2 := h.1
    rw [h1] at h2
    simp only [Bool.false_or] at h2
    obtain ⟨p, hp, hps⟩ := List.any_eq_true.mp h2
    simp only [h1, Bool.false_or]
    exact List.any_eq_true.mpr ⟨p, hp, by simp [hps]⟩

/-- Claim C1, amended half: in collect_project_v4, every file emitted by the
contents pass is also listed by the structure pass (the include filter of the
contents pass implies the include filter of the structure pass). -/
theorem C1_contents_subset_structure (exts incl excl : List String) (fs : FSTree)
    (f : String) (hf : f ∈ v4ContFiles exts incl excl fs) :
    f ∈ v4StructFiles exts incl excl fs := by
  unfold v4ContFiles v4ContBlocks at hf
  obtain ⟨b, hb, rfl⟩ := List.mem_map.mp hf
  obtain ⟨e, he, hbe⟩ := List.mem_flatMap.mp hb
  obtain ⟨fc, hfc, rfl⟩ := List.mem_map.mp hbe
  rw [List.mem_filter] at he
  unfold v4StructFiles
  refine List.mem_flatMap.mpr
    ⟨e, List.mem_filter.mpr ⟨he.1, v4KeepCont_keepStruct _ _ _ he.2⟩, ?_⟩
  refine List.mem_map.mpr ⟨fc.1, ?_, rfl⟩
  rw [entryNames_eq]
  exact List.mem_map.mpr ⟨fc, hfc, rfl⟩

/-- A project tree with a matching file directly at PROJECT_ROOT next to an
included subtree. -/
def fsC1 : FSTree :=
  .dir "proj" (.cons (.file "a.md" (.ok "hello"))
    (.cons (.dir "src" (.cons (.file "b.md" (.ok "x")) .nil)) .nil))

/-- Claim C1 as stated is false: with include_paths = ["src"], the structure
pass of collect_project_v4 visits the root (because "src".startswith("") is
true) and lists a.md, but the contents pass skips the root (because
"".startswith("src") is false), so a.md gets no content block. -/
theorem C1_counterexample :
    v4StructFiles [".md"] ["src"] [] fsC1 = ["a.md", "src/b.md"] ∧
    v4ContFiles [".md"] ["src"] [] fsC1 = ["src/b.md"] ∧
    "a.md" ∈ v4StructFiles [".md"] ["src"] [] fsC1 ∧
    "a.md" ∉ v4ContFiles [".md"] ["src"] [] fsC1 := by decide

/-- Witness for C1_contents_subset_structure at a concrete run. -/
theorem C1_witness : "src/b.md" ∈ v4StructFiles [".md"] ["src"] [] fsC1 :=
  C1_contents_subset_structure [".md"] ["src"] [] fsC1 "src/b.md" (by decide)

/-! Claim C4. -/

/-- A project tree with src/a.txt, lib/b.txt and src/generated/c.txt. -/
def fsC4 : FSTree :=
  .dir "proj" (.cons
    (.dir "src" (.cons (.file "a.txt" (.ok "A"))
      (.cons (.dir "generated" (.cons (.file "c.txt" (.ok "C")) .nil)) .nil)))
    (.cons (.dir "lib" (.cons (.file "b.txt" (.ok "B")) .nil)) .nil))

/-- Claim C4: with include_paths = ["src"], collect_project_v4 emits
src/a.txt and not lib/b.txt (in both sections, the directory filter admits
rel_root "src" and rejects "lib" in every run); adding
exclude_paths = ["src/generated"] drops src/generated/c.txt even though its
directory matches the include prefix. -/
theorem C4_prefix_filtering :
    v4KeepCont ["src"] [] "src" = true ∧
    v4KeepCont ["src"] [] "lib" = false ∧
    v4KeepStruct ["src"] [] "lib" = false ∧
    v4KeepCont ["src"] ["src/generated"] "src/generated" = false ∧
    v4KeepStruct ["src"] ["src/generated"] "src/generated" = false ∧
    v4ContFiles [".txt"] ["src"] [] fsC4 = ["src/a.txt", "src/generated/c.txt"] ∧
    v4StructFiles [".txt"] ["src"] [] fsC4 = ["src/a.txt", "src/generated/c.txt"] ∧
    v4ContFiles [".txt"] ["src"] ["src/generated"] fsC4 = ["src/a.txt"] ∧
    v4StructFiles [".txt"] ["src"] ["src/generated"] fsC4 = ["src/a.txt"] := by decide

/-! Claim C5. -/

/-- Claim C5: a filename passes the extension filter of both scripts exactly
when some string of the extension list is a literal (case-sensitive,
glob-free) suffix of it, and in particular "notes.md.bak" does not pass the
filter [".md"]. -/
theorem C5_extension_match :
    (∀ (exts : List String) (f : String),
      matchesExt exts f = true ↔ ∃ e ∈ exts, ∃ p : String, f = p ++ e) ∧
    matchesExt [".md"] "notes.md.bak" = false := by
  constructor
  · intro exts f
    unfold matchesExt pyEndswith
    rw [List.any_eq_true]
    constructor
    · rintro ⟨e, he, hsuf⟩
      rw [List.isSuffixOf_iff_suffix] at hsuf
      obtain ⟨t, ht⟩ := hsuf
      exact ⟨e, he, String.mk t,
        String.ext (by rw [String.data_append]; exact ht.symm)⟩
    · rintro ⟨e, he, p, rfl⟩
      refine ⟨e, he, ?_⟩
      rw [List.isSuffixOf_iff_suffix, String.data_append]
      exact ⟨p.data, rfl⟩
  · decide

/-! Claim C8. -/

/-- Claim C8: with an unchanged source tree and configuration, a second run
of either aggregator overwrites the output file of the first with the same
bytes: both scripts open the output with mode w and their document is a
function of the tree and the configuration only, so running twice equals
running once on the output-directory state. -/
theorem C8_idempotent :
    (∀ (projRoot outName : String) (exts incl excl : List String) (fs : FSTree)
      (st : String → Option String),
      v4Run projRoot outName exts incl excl fs
          (v4Run projRoot outName exts incl excl fs st)
        = v4Run projRoot outName exts incl excl fs st) ∧
    (∀ (scanDirs : List String) (outName : String)
      (exts ignore extras : List String) (fs : FSTree)
      (st : String → Option String),
      allRun scanDirs outName exts ignore extras fs
          (allRun scanDirs outName exts ignore extras fs st)
        = allRun scanDirs outName exts ignore extras fs st) := by
  constructor
  · intro projRoot outName exts incl excl fs st
    funext n
    simp only [v4Run, writeOut]
    by_cases h : n = outName <;> simp [h]
  · intro scanDirs outName exts ignore extras fs st
    funext n
    simp only [allRun, writeOut]
    by_cases h : n = outName <;> simp [h]

/-! Claim C9. -/

/-- A project tree whose only subtree is a directory literally named
srcOld. -/
def fsC9 : FSTree :=
  .dir "proj" (.cons (.dir "srcOld" (.cons (.file "x.txt" (.ok "X")) .nil)) .nil)

/-- Claim C9: the include and exclude path filters of collect_project_v4 use
plain string-prefix comparison on the root-relative path, so the entry "src"
also matches a directory literally named "srcOld": with include ["src"] the
file srcOld/x.txt is collected, and with exclude ["src"] it is dropped from
both sections. -/
theorem C9_literal_startswith :
    pyStartswith "srcOld" "src" = true ∧
    v4ContFiles [".txt"] ["src"] [] fsC9 = ["srcOld/x.txt"] ∧
    v4StructFiles [".txt"] ["src"] [] fsC9 = ["srcOld/x.txt"] ∧
    v4ContFiles [".txt"] [] ["src"] fsC9 = [] ∧
    v4StructFiles [".txt"] [] ["src"] fsC9 = [] := by decide

/-! Claim C2. -/

/-- A flat directory listing built from (name, read outcome) pairs. -/
def mkFiles : List (String × Except String String) → FSList
  | [] => .nil
  | (n, c) :: r => .cons (.file n c) (mkFiles r)

theorem fileEntries_mkFiles :
    (l : List (String × Except String String)) → fileEntries (mkFiles l) = l
  | [] => rfl
  | (n, c) :: r => by simp [mkFiles, fileEntries, fileEntries_mkFiles r]

theorem walkChildren_mkFiles (ig : List String) (rel : String) :
    (l : List (String × Except String String)) → walkChildren ig rel (mkFiles l) = []
  | [] => rfl
  | (n, c) :: r => by
    simp [mkFiles, walkChildren, walkTree, walkChildren_mkFiles ig rel r]

theorem v4ContBlocks_flat (exts : List String)
    (files : List (String × Except String String)) :
    v4ContBlocks exts [] [] (.dir "proj" (mkFiles files))
      = (entryPairs exts ⟨"", "proj", files⟩).map (fun fc => (joinRel "" fc.1, fc.2)) := by
  simp only [v4ContBlocks, v4Walk, walkTop]
  rw [walkChildren_mkFiles, fileEntries_mkFiles]
  simp [v4KeepCont]

/-- Claim C2: for a directory whose matching listing has exactly one
unreadable file, the contents pass of collect_project_v4 emits exactly one
block with the inline error marker and one full content block per readable
matching file, and the error block carries the exception description; the
run is a total function of the tree, so the failure never escapes to the
caller. -/
theorem C2_unreadable_file (exts : List String)
    (files : List (String × Except String String))
    (h : (files.filter (fun fc => matchesExt exts fc.1)).countP
        (fun fc => !fc.2.isOk) = 1) :
    (v4ContBlocks exts [] [] (.dir "proj" (mkFiles files))).countP
        (fun fc => !fc.2.isOk) = 1
    ∧ (v4ContBlocks exts [] [] (.dir "proj" (mkFiles files))).countP
        (fun fc => fc.2.isOk)
      = (files.filter (fun fc => matchesExt exts fc.1)).countP (fun fc => fc.2.isOk)
    ∧ ∀ p msg, fileBlock p (.error msg)
        = fileHeader p ++ ("// Error reading file: " ++ msg) ++ "\n" := by
  have hperm : (entryPairs exts ⟨"", "proj", files⟩).Perm
      (files.filter (fun fc => matchesExt exts fc.1)) := by
    unfold entryPairs sortFiles
    exact (List.perm_insertionSort pairNameLe files).filter _
  have hcomp1 : ((fun fc : String × Except String String => !fc.2.isOk) ∘
      (fun fc : String × Except String String => (joinRel "" fc.1, fc.2)))
      = fun fc => !fc.2.isOk := rfl
  have hcomp2 : ((fun fc : String × Except String String => fc.2.isOk) ∘
      (fun fc : String × Except String String => (joinRel "" fc.1, fc.2)))
      = fun fc => fc.2.isOk := rfl
  refine ⟨?_, ?_, fun p msg => rfl⟩
  · rw [v4ContBlocks_flat, List.countP_map, hcomp1, hperm.countP_eq]
    exact h
  · rw [v4ContBlocks_flat, List.countP_map, hcomp2, hperm.countP_eq]

/-- The concrete unreadable-file injection: one readable and one unreadable
matching file. -/
def c2files : List (String × Except String String) :=
  [("a.md", .ok "A"), ("b.md", .error "Permission denied")]

/-- Witness for C2_unreadable_file at a concrete directory. -/
theorem C2_witness :
    ((c2files.filter (fun fc => matchesExt [".md"] fc.1)).countP
        (fun fc => !fc.2.isOk) = 1)
    ∧ ((v4ContBlocks [".md"] [] [] (.dir "proj" (mkFiles c2files))).countP
          (fun fc => !fc.2.isOk) = 1
      ∧ (v4ContBlocks [".md"] [] [] (.dir "proj" (mkFiles c2files))).countP
          (fun fc => fc.2.isOk)
        = (c2files.filter (fun fc => matchesExt [".md"] fc.1)).countP
            (fun fc => fc.2.isOk)
      ∧ ∀ p msg, fileBlock p (.error msg)
          = fileHeader p ++ ("// Error reading file: " ++ msg) ++ "\n") :=
  ⟨by decide, C2_unreadable_file [".md"] c2files (by decide)⟩

/-! Claim C3. -/

/-- Claim C3, amended: a directory that the traversal pruning drops (a child
whose name is in the ignore set, anywhere below a walk top) contributes
nothing: deleting all such subtrees changes neither any walk nor the whole
collect_project_v4 document.  The walk top itself is exempt: os.walk never
tests it (see C3_counterexample). -/
theorem C3_ignored_contribute_nothing :
    (∀ (ignore : List String) (rel base : String) (cs : FSList),
      walkTop ignore rel base (pruneList ignore cs) = walkTop ignore rel base cs) ∧
    (∀ (projRoot : String) (exts incl excl : List String) (fs : FSTree),
      v4Doc projRoot exts incl excl (v4Prune fs) = v4Doc projRoot exts incl excl fs) := by
  refine ⟨walkTop_pruneList, ?_⟩
  intro projRoot exts incl excl fs
  simp [v4Doc, v4StructSection, v4ContSection, v4ContBlocks, v4StructFiles,
    v4Walk_v4Prune]

/-- A tree whose Docs directory holds one markdown file. -/
def fsC3 : FSTree :=
  .dir "proj" (.cons (.dir "Docs" (.cons (.file "readme.md" (.ok "r")) .nil)) .nil)

/-- Claim C3 as stated is false at a scan root: running collect_all with
scan_dirs = ["Docs"] and ignore_set = {"Docs"} still lists and emits
Docs/readme.md, because os.walk never tests the top directory of a walk
against the ignore set (pruning only filters children). -/
theorem C3_counterexample :
    allStructSeq ["Docs"] [".md"] ["Docs"] [] fsC3 = ["Docs/readme.md"] ∧
    allContSeq ["Docs"] [".md"] ["Docs"] [] fsC3 = ["Docs/readme.md"] := by decide

/-! Claim C6. -/

theorem allSeqScan_eq (fs : FSTree) (exts ignore : List String) (s : String) :
    allStructSeqScan fs exts ignore s = allContSeqScan fs exts ignore s := by
  unfold allStructSeqScan allContSeqScan
  cases h : walkScan fs ignore s with
  | none => rfl
  | some es =>
    have hpt : ∀ e : WalkEntry,
        (entryNames exts e).map (joinRel e.rel)
          = (entryPairs exts e).map (fun fc => joinRel e.rel fc.1) := by
      intro e
      rw [entryNames_eq, List.map_map]
      rfl
    simp only [hpt]

/-- Claim C6, amended: within every visited directory both passes of
collect_all emit the matching file names in ascending code-point order, and
for runs without extra root files the per-file order of the contents section
equals that of the structure section; extra root files break the second
half, being listed first in the structure section but emitted last in the
contents section (see C6_counterexample). -/
theorem C6_ordering :
    (∀ (exts : List String) (e : WalkEntry),
      List.Pairwise (fun a b => pyLeb a b = true) (entryNames exts e)) ∧
    (∀ (scanDirs exts ignore : List String) (fs : FSTree),
      allStructSeq scanDirs exts ignore [] fs = allContSeq scanDirs exts ignore [] fs) := by
  refine ⟨entryNames_pairwise, ?_⟩
  intro scanDirs exts ignore fs
  have hfun : allStructSeqScan fs exts ignore = allContSeqScan fs exts ignore :=
    funext (allSeqScan_eq fs exts ignore)
  simp [allStructSeq, allContSeq, hfun]

/-- A tree with an extra root file A.md and a scanned Docs directory. -/
def fsC6 : FSTree :=
  .dir "proj" (.cons (.file "A.md" (.ok "a"))
    (.cons (.dir "Docs" (.cons (.file "b.md" (.ok "b")) .nil)) .nil))

/-- Claim C6 as stated is false for runs with extra root files: collect_all
lists them before the walk in the structure section but writes their blocks
after the walk in the contents section, so the two per-file orders differ. -/
theorem C6_counterexample :
    allStructSeq ["Docs"] [".md"] [] ["A.md"] fsC6 = ["A.md", "Docs/b.md"] ∧
    allContSeq ["Docs"] [".md"] [] ["A.md"] fsC6 = ["Docs/b.md", "A.md"] ∧
    allStructSeq ["Docs"] [".md"] [] ["A.md"] fsC6
      ≠ allContSeq ["Docs"] [".md"] [] ["A.md"] fsC6 := by decide

/-! Claim C7. -/

/-- Claim C7: when a configured scan directory does not exist, collect_all
writes the directory-not-found notice at its position in the structure
section, contributes no content blocks for it, and the surrounding scan
directories are processed exactly as before and after it. -/
theorem C7_missing_scan_dir (fs : FSTree) (exts ignore extras pre post : List String)
    (d : String) (hlookup : lookupPath fs (relParts d) = none) :
    allStructSection (pre ++ d :: post) exts ignore extras fs
      = extraStructStr fs extras
        ++ strConcat (pre.map (allStructScanStr fs exts ignore))
        ++ ("(Directory not found: " ++ d ++ ")\n")
        ++ strConcat (post.map (allStructScanStr fs exts ignore))
    ∧ allContSection (pre ++ d :: post) exts ignore extras fs
      = strConcat (pre.map (fun s =>
          strConcat ((allContScanBlocks fs exts ignore s).map (fun b => fileBlock b.1 b.2))))
        ++ strConcat (post.map (fun s =>
          strConcat ((allContScanBlocks fs exts ignore s).map (fun b => fileBlock b.1 b.2))))
        ++ strConcat ((extraContBlocks fs extras).map (fun b => fileBlock b.1 b.2)) := by
  have hw : walkScan fs ignore d = none := by
    unfold walkScan
    rw [hlookup]
  have hs : allStructScanStr fs exts ignore d
      = "(Directory not found: " ++ d ++ ")\n" := by
    unfold allStructScanStr
    rw [hw]
  have hc : allContScanBlocks fs exts ignore d = [] := by
    unfold allContScanBlocks
    rw [hw]
  constructor
  · simp only [allStructSection, List.map_append, List.map_cons, strConcat_append,
      strConcat, hs, String.append_assoc]
  · simp only [allContSection, List.map_append, List.map_cons, strConcat_append,
      strConcat, hc, List.map_nil, String.append_assoc]
    simp

/-- A tree whose Docs directory holds one markdown file, next to which the
scan directory Missing does not exist. -/
def fsC7 : FSTree :=
  .dir "proj" (.cons (.dir "Docs" (.cons (.file "b.md" (.ok "B")) .nil)) .nil)

/-- Witness for C7_missing_scan_dir at a concrete run. -/
theorem C7_witness :
    lookupPath fsC7 (relParts "Missing") = none ∧
    (allStructSection ([] ++ "Missing" :: ["Docs"]) [".md"] [] [] fsC7
      = extraStructStr fsC7 []
        ++ strConcat (([] : List String).map (allStructScanStr fsC7 [".md"] []))
        ++ ("(Directory not found: " ++ "Missing" ++ ")\n")
        ++ strConcat ((["Docs"]).map (allStructScanStr fsC7 [".md"] [])))
    ∧ (allContSection ([] ++ "Missing" :: ["Docs"]) [".md"] [] [] fsC7
      = strConcat (([] : List String).map (fun s =>
          strConcat ((allContScanBlocks fsC7 [".md"] [] s).map (fun b => fileBlock b.1 b.2))))
        ++ strConcat ((["Docs"]).map (fun s =>
          strConcat ((allContScanBlocks fsC7 [".md"] [] s).map (fun b => fileBlock b.1 b.2))))
        ++ strConcat ((extraContBlocks fsC7 []).map (fun b => fileBlock b.1 b.2))) :=
  ⟨rfl, (C7_missing_scan_dir fsC7 [".md"] [] [] [] ["Docs"] "Missing" rfl).1,
    (C7_missing_scan_dir fsC7 [".md"] [] [] [] ["Docs"] "Missing" rfl).2⟩

/-! Claim C10. -/

/-- A tree whose Docs directory holds one markdown file, reachable both via
the scan entry "." and via the scan entry "Docs". -/
def fsC10 : FSTree :=
  .dir "proj" (.cons (.dir "Docs" (.cons (.file "g.md" (.ok "G")) .nil)) .nil)

/-- Claim C10: collect_all processes its scan directories independently and
never deduplicates: the emitted file sequence of a run is the concatenation
of the per-scan-directory sequences, and with scan_dirs = [".", "Docs"] and
an empty ignore set the file Docs/g.md appears once per containing scan
entry, in the structure section and in the contents section alike. -/
theorem C10_no_dedup :
    (∀ (ds₁ ds₂ exts ignore : List String) (fs : FSTree),
      allContSeq (ds₁ ++ ds₂) exts ignore [] fs
        = allContSeq ds₁ exts ignore [] fs ++ allContSeq ds₂ exts ignore [] fs ∧
      allStructSeq (ds₁ ++ ds₂) exts ignore [] fs
        = allStructSeq ds₁ exts ignore [] fs ++ allStructSeq ds₂ exts ignore [] fs) ∧
    allContSeq [".", "Docs"] [".md"] [] [] fsC10 = ["Docs/g.md", "Docs/g.md"] ∧
    allStructSeq [".", "Docs"] [".md"] [] [] fsC10 = ["Docs/g.md", "Docs/g.md"] := by
  refine ⟨?_, by decide, by decide⟩
  intro ds₁ ds₂ exts ignore fs
  constructor <;> simp [allContSeq, allStructSeq, List.flatMap_append]

end Collect
